import Mathlib

/-!
Verification development for the AI chat gateway backend
(src/api/auth.py, src/api/providers.py, src/api/app.py).

The Python source is shallowly embedded: the mutable fields of
OIDCAuthService become an explicit `AuthState` threaded through the
functions, network effects become an explicit `Net` environment fixing
the outcome of each fetch, and Python exceptions become `Except` values
that the catching function converts exactly where the source catches
them.  Times are integers counting seconds (the source truncates its
cache-expiry timestamp to whole seconds via replace with microsecond 0).
-/

set_option autoImplicit false
set_option maxRecDepth 4096

namespace AIChat

/-! ## Data model for src/api/auth.py -/

/-- OIDC discovery document fields used by the service
(auth.py uses issuer, jwks_uri and userinfo_endpoint). -/
structure OIDCConfig where
  issuer : String
  jwks_uri : String
  userinfo_endpoint : String
  deriving DecidableEq

/-- One entry of the JSON Web Key Set: an optional key identifier plus the
key material (the RSA parameters, kept abstract as a string). -/
structure JWK where
  kid : Option String
  material : String
  deriving DecidableEq

/-- An RSA verification key as built by RSAKey(key_data, algorithm="RS256")
in auth.py line 70; only the material matters for the model. -/
structure RSAKey where
  material : String
  deriving DecidableEq

/-- Embeds the RSAKey construction from a JWK (auth.py line 70). -/
def rsa_of_jwk (j : JWK) : RSAKey := ⟨j.material⟩

/-- The mutable fields of OIDCAuthService (auth.py lines 20-23):
jwks cache keyed by kid, cached discovery document, cache expiry. -/
structure AuthState where
  jwksCache : List (String × RSAKey)
  configCache : Option OIDCConfig
  cacheExpiry : Option Int
  deriving DecidableEq

/-- The network environment for one call: the current time, the outcome of
fetching the fixed discovery URL, and the outcome of fetching a JWKS
endpoint by URI.  An error outcome stands for a raised httpx or JSON
exception (network failure, non-2xx status, malformed body). -/
structure Net where
  now : Int
  configFetch : Except String OIDCConfig
  jwksFetch : String → Except String (List JWK)

/-- The decoded claim set carried by a token; `extra` holds all claims the
validation logic never inspects. -/
structure TokenPayload where
  iss : String
  exp : Int
  iat : Option Int
  aud : String
  extra : List (String × String)
  deriving DecidableEq

/-- A bearer token as the jose library sees it: whether the header parses,
the kid header value (none when absent), the alg header, the predicate
telling for which key material the signature verifies, whether the raw iat
claim fails the library's is-an-integer check, and the decoded payload. -/
structure Token where
  headerOk : Bool
  kid : Option String
  alg : String
  sigValidFor : String → Bool
  iatMalformed : Bool
  payload : TokenPayload

/-- The options dictionary passed to jwt.decode (auth.py lines 98-104). -/
structure JoseOptions where
  verify_signature : Bool
  verify_aud : Bool
  verify_iss : Bool
  verify_exp : Bool
  verify_iat : Bool
  deriving DecidableEq

/-- The algorithms list passed to jwt.decode (auth.py line 96). -/
def ACCEPTED_ALGS : List String := ["RS256", "RS384", "RS512"]

/-- The options passed by validate_token (auth.py lines 98-104):
verify_signature, verify_iss, verify_exp, verify_iat on; verify_aud off. -/
def VOPTS : JoseOptions := ⟨true, false, true, true, true⟩

/-- The jose audience check fails when verification is requested but no
expected audience parameter was supplied, or the audiences mismatch. -/
def aud_check_fails (audience : Option String) (aud : String) : Bool :=
  match audience with
  | none => true
  | some a => aud != a

/-- Model of jose's jwt.decode as called by validate_token: signature
verification against the supplied key under one of the allowed algorithms,
then the claim checks enabled by the options.  A present `iat` passes the
library's check exactly when it is an integer, which `iatMalformed`
records.  Any failed check raises JWTError, modelled as an error value. -/
def jose_decode (tok : Token) (key : RSAKey) (algorithms : List String)
    (issuer : String) (now : Int) (audience : Option String)
    (opts : JoseOptions) : Except String TokenPayload :=
  if tok.headerOk = false then
    .error "Error decoding token headers."
  else if algorithms.contains tok.alg = false then
    .error "The specified alg value is not allowed"
  else if opts.verify_signature = true ∧ tok.sigValidFor key.material = false then
    .error "Signature verification failed."
  else if opts.verify_iat = true ∧ tok.iatMalformed = true then
    .error "Issued At claim (iat) must be an integer."
  else if opts.verify_exp = true ∧ tok.payload.exp < now then
    .error "Signature has expired."
  else if opts.verify_aud = true ∧ aud_check_fails audience tok.payload.aud = true then
    .error "Invalid audience"
  else if opts.verify_iss = true ∧ tok.payload.iss ≠ issuer then
    .error "Invalid issuer"
  else
    .ok tok.payload

/-- The fetch branch of get_oidc_config (auth.py lines 31-37): on success
store the document and set expiry to now plus one hour; on failure the
exception propagates and the cache is left untouched.  The third component
counts network fetch attempts made by the call. -/
def fetch_oidc_config (n : Net) (st : AuthState) :
    Except String OIDCConfig × AuthState × Nat :=
  match n.configFetch with
  | .error m => (.error m, st, 1)
  | .ok cfg =>
      (.ok cfg,
       { st with configCache := some cfg, cacheExpiry := some (n.now + 3600) },
       1)

/-- Embeds OIDCAuthService.get_oidc_config (auth.py lines 25-37): return
the cached document when both cache fields are set and now is before the
expiry, otherwise fetch. -/
def get_oidc_config (n : Net) (st : AuthState) :
    Except String OIDCConfig × AuthState × Nat :=
  match st.configCache, st.cacheExpiry with
  | some cfg, some e =>
      if n.now < e then (.ok cfg, st, 0) else fetch_oidc_config n st
  | some _, none => fetch_oidc_config n st
  | none, _ => fetch_oidc_config n st

/-- Embeds OIDCAuthService.get_jwks (auth.py lines 39-47): resolve the
discovery document, then fetch its jwks_uri.  Either failure propagates as
an exception to the caller. -/
def get_jwks (n : Net) (st : AuthState) :
    Except String (List JWK) × AuthState :=
  match get_oidc_config n st with
  | (.error m, st1, _) => (.error m, st1)
  | (.ok cfg, st1, _) =>
      match n.jwksFetch cfg.jwks_uri with
      | .error m => (.error m, st1)
      | .ok keys => (.ok keys, st1)

/-- Embeds OIDCAuthService.get_signing_key (auth.py lines 49-78): read the
kid from the unverified header (a falsy kid, absent or empty, fails), try
the cache, otherwise fetch the key set, search it for the kid, and insert
the found key into the cache.  The surrounding try/except turns every
exception into None. -/
def get_signing_key (n : Net) (st : AuthState) (tok : Token) :
    Option RSAKey × AuthState :=
  if tok.headerOk = false then (none, st)
  else
    match tok.kid with
    | none => (none, st)
    | some kid =>
      if kid = "" then (none, st)
      else
        match st.jwksCache.lookup kid with
        | some key => (some key, st)
        | none =>
          match get_jwks n st with
          | (.error _, st1) => (none, st1)
          | (.ok keys, st1) =>
            match keys.find? (fun k => k.kid == some kid) with
            | some j =>
                (some (rsa_of_jwk j),
                 { st1 with jwksCache := st1.jwksCache ++ [(kid, rsa_of_jwk j)] })
            | none => (none, st1)

/-- Embeds OIDCAuthService.validate_token (auth.py lines 80-114): resolve
the signing key (None short-circuits), resolve the expected issuer from
the discovery document (an exception is caught and becomes None), then
jwt.decode with RS256/RS384/RS512, issuer verification, exp and iat
verification, and audience verification disabled; a JWTError or any other
exception is caught and becomes None. -/
def validate_token (n : Net) (st : AuthState) (tok : Token) :
    Option TokenPayload × AuthState :=
  match get_signing_key n st tok with
  | (none, st1) => (none, st1)
  | (some key, st1) =>
    match get_oidc_config n st1 with
    | (.error _, st2, _) => (none, st2)
    | (.ok cfg, st2, _) =>
      match jose_decode tok key ACCEPTED_ALGS cfg.issuer n.now none VOPTS with
      | .error _ => (none, st2)
      | .ok claims => (some claims, st2)

/-! ## Data model for src/api/providers.py -/

/-- One part of a multimodal message content list, as built by app.py:
a text part or an image_url part carrying a data URI. -/
inductive Part where
  | text (t : String)
  | image_url (url : String)
  deriving DecidableEq

/-- Message content: either a plain string or a list of content parts. -/
inductive Content where
  | str (s : String)
  | parts (l : List Part)
  deriving DecidableEq

/-- An OpenAI-style chat message: a role string and content. -/
structure Msg where
  role : String
  content : Content
  deriving DecidableEq

/-- A Claude-format message as produced by ClaudeProvider._convert_messages:
the content is always a single text string. -/
structure ClaudeMsg where
  role : String
  content : String
  deriving DecidableEq

/-- The request ClaudeProvider.stream_chat_completion transmits: the
top-level system field and the converted message array
(providers.py lines 115-121). -/
structure ClaudeRequest where
  system : Content
  messages : List ClaudeMsg
  deriving DecidableEq

/-- The text_parts accumulation loop of ClaudeProvider._convert_content
(providers.py lines 153-158): keep the text of text parts, skip
everything else, including image parts. -/
def collect_text_parts : List Part → List String
  | [] => []
  | .text t :: ps => t :: collect_text_parts ps
  | .image_url _ :: ps => collect_text_parts ps

/-- The text carried by a part, if any. -/
def part_text : Part → Option String
  | .text t => some t
  | .image_url _ => none

/-- Embeds ClaudeProvider._convert_content (providers.py lines 147-161):
a string passes through; a part list becomes its text parts joined by
single spaces. -/
def claude_convert_content : Content → String
  | .str s => s
  | .parts l => String.intercalate " " (collect_text_parts l)

/-- Embeds ClaudeProvider._convert_messages (providers.py lines 131-145):
system messages are skipped, every other message keeps its role (the
source conditional on "assistant" is the identity, kept verbatim) and has
its content converted to a single string. -/
def claude_convert_messages : List Msg → List ClaudeMsg
  | [] => []
  | m :: ms =>
    if m.role = "system" then claude_convert_messages ms
    else
      ⟨if m.role ≠ "assistant" then m.role else "assistant",
       claude_convert_content m.content⟩ :: claude_convert_messages ms

/-- The system-message extraction in ClaudeProvider.stream_chat_completion
(providers.py lines 107-110): the first message's content if its role is
system, otherwise the empty string. -/
def extract_system : List Msg → Content
  | [] => .str ""
  | m :: _ => if m.role = "system" then m.content else .str ""

/-- The request construction of ClaudeProvider.stream_chat_completion
(providers.py lines 107-121): separate system field plus converted
message array. -/
def claude_build_request (messages : List Msg) : ClaudeRequest :=
  ⟨extract_system messages, claude_convert_messages messages⟩

/-- The delta of one streamed OpenAI chunk choice. -/
structure Delta where
  content : Option String
  deriving DecidableEq

/-- One choice of a streamed OpenAI chunk. -/
structure Choice where
  delta : Delta
  deriving DecidableEq

/-- One event of the OpenAI stream. -/
structure Chunk where
  choices : List Choice
  deriving DecidableEq

/-- Embeds the consuming loop of OpenAIProvider.stream_chat_completion
(providers.py lines 71-76) over a scripted upstream: for each chunk,
chunk.choices[0] is indexed (an empty choices list raises IndexError,
re-raised as the provider error by the except clause) and the delta
content is yielded exactly when it is not None. -/
def openai_stream_chat : List Chunk → Except String (List String)
  | [] => .ok []
  | c :: cs =>
    match c.choices.head? with
    | none => .error "OpenAI API error: list index out of range"
    | some ch =>
      match ch.delta.content with
      | none => openai_stream_chat cs
      | some t =>
        match openai_stream_chat cs with
        | .error m => .error m
        | .ok ts => .ok (t :: ts)

/-- OpenAIProvider.get_supported_models (providers.py lines 78-86). -/
def openai_supported_models : List String :=
  ["gpt-4o-mini", "gpt-4o", "gpt-4-turbo", "gpt-4", "gpt-3.5-turbo"]

/-- ClaudeProvider.get_supported_models (providers.py lines 163-171). -/
def claude_supported_models : List String :=
  ["claude-3-5-sonnet-20241022", "claude-3-5-haiku-20241022",
   "claude-3-opus-20240229", "claude-3-sonnet-20240229",
   "claude-3-haiku-20240307"]

/-- The closed set of provider implementations. -/
inductive ProviderKind where
  | openai
  | claude
  deriving DecidableEq

/-- The supported-model list of a provider instance. -/
def get_supported_models : ProviderKind → List String
  | .openai => openai_supported_models
  | .claude => claude_supported_models

/-- Embeds validate_model of both providers (providers.py lines 88-90 and
173-175): membership in the static supported list. -/
def validate_model (p : ProviderKind) (model : String) : Bool :=
  (get_supported_models p).contains model

/-- Embeds the Python str.lower call applied to provider names: each
character lower-cased. -/
def str_lower (s : String) : String := ⟨s.data.map Char.toLower⟩

/-- Embeds ProviderFactory.create_provider (providers.py lines 181-203):
lower-case the name, match against the known set, ValueError otherwise. -/
def create_provider (provider_type : String) : Except String ProviderKind :=
  let t := str_lower provider_type
  if t = "openai" then .ok .openai
  else if t = "claude" then .ok .claude
  else .error ("Unsupported provider type: " ++ t)

/-- The ValueError message raised for a missing OpenAI key
(providers.py lines 228-232). -/
def OPENAI_KEY_ERROR : String :=
  "❌ OpenAI API Key Required: No API key was provided in the request and no OPENAI_API_KEY environment variable is set. Please either: 1) Add your API key in the frontend settings, or 2) Set the OPENAI_API_KEY environment variable on the server. Get your API key from: https://platform.openai.com/api-keys"

/-- The ValueError message raised for a missing Claude key
(providers.py lines 238-242). -/
def CLAUDE_KEY_ERROR : String :=
  "❌ Claude API Key Required: No API key was provided in the request and no CLAUDE_API_KEY environment variable is set. Please either: 1) Add your API key in the frontend settings, or 2) Set the CLAUDE_API_KEY environment variable on the server. Get your API key from: https://console.anthropic.com/"

/-- The environment-lookup half of ProviderFactory.get_provider_api_key
(providers.py lines 223-246): look up the provider's environment variable;
a falsy value, unset or empty, raises the remediation ValueError. -/
def env_api_key (env : String → Option String) (provider_type : String) :
    Except String String :=
  let t := str_lower provider_type
  if t = "openai" then
    match env "OPENAI_API_KEY" with
    | some k => if k ≠ "" then .ok k else .error OPENAI_KEY_ERROR
    | none => .error OPENAI_KEY_ERROR
  else if t = "claude" then
    match env "CLAUDE_API_KEY" with
    | some k => if k ≠ "" then .ok k else .error CLAUDE_KEY_ERROR
    | none => .error CLAUDE_KEY_ERROR
  else .error ("Unsupported provider type: " ++ t)

/-- Embeds ProviderFactory.get_provider_api_key (providers.py lines
205-246): a truthy custom key, meaning present and non-empty, is returned
as is before anything else; otherwise the environment default decides. -/
def get_provider_api_key (env : String → Option String)
    (provider_type : String) (custom_key : Option String) :
    Except String String :=
  match custom_key with
  | some k => if k ≠ "" then .ok k else env_api_key env provider_type
  | none => env_api_key env provider_type

/-! ## Data model for src/api/app.py -/

/-- The parsed ChatRequest pydantic model (app.py lines 81-87); the four
optional fields keep their Optional types. -/
structure ChatRequest where
  developer_message : String
  user_message : String
  model : Option String
  provider : Option String
  api_key : Option String
  images : Option (List String)
  deriving DecidableEq

/-- A raw request body before pydantic applies defaults: for each optional
field, the outer none means the field was omitted, some v means it was
supplied with value v (where v itself may be the JSON null, the inner
none). -/
structure ChatBody where
  developer_message : String
  user_message : String
  model : Option (Option String)
  provider : Option (Option String)
  api_key : Option (Option String)
  images : Option (Option (List String))
  deriving DecidableEq

/-- Pydantic parsing of a body into a ChatRequest: omitted fields take the
declared defaults "gpt-4o-mini", "openai", None, None
(app.py lines 81-87). -/
def parse_chat_request (b : ChatBody) : ChatRequest where
  developer_message := b.developer_message
  user_message := b.user_message
  model := b.model.getD (some "gpt-4o-mini")
  provider := b.provider.getD (some "openai")
  api_key := b.api_key.getD none
  images := b.images.getD none

/-- The message-list construction inside the chat endpoint's generate
(app.py lines 114-135): one system message from the developer message, one
user message whose content is the user text part followed by one image_url
part per supplied image, as a data URI. -/
def build_messages (developer_message user_message : String)
    (images : Option (List String)) : List Msg :=
  [⟨"system", .str developer_message⟩,
   ⟨"user",
    .parts (Part.text user_message ::
      (match images with
       | none => []
       | some imgs =>
           imgs.map (fun b => Part.image_url ("data:image/jpeg;base64," ++ b))))⟩]

/-- What the chat endpoint produces for one authenticated request: either
the streaming response (carrying the messages and model handed to the
provider) or an HTTPException with status code and detail. -/
inductive ChatResponse where
  | streaming (messages : List Msg) (model : String) (max_tokens : Nat)
  | httpError (status : Nat) (detail : String)
  deriving DecidableEq

/-- Starlette's string rendering of an HTTPException, used when one is
caught and re-raised: the status code, a colon and the detail. -/
def http_exception_str (status : Nat) (detail : String) : String :=
  toString status ++ ": " ++ detail

/-- The detail of the HTTPException built for an unsupported model
(app.py lines 106-110). -/
def invalid_model_detail (p : ProviderKind) (provider model : String) : String :=
  "❌ Invalid model '" ++ model ++ "' for provider '" ++ provider ++
    "'. Supported models: " ++ String.intercalate ", " (get_supported_models p)

/-- Embeds the chat endpoint body after authentication (app.py lines
96-154).  The try block resolves the key, creates the provider, validates
the model and returns the streaming response; a ValueError is caught and
becomes a 400; any other exception, including the HTTPException(400)
raised for an invalid model inside the try block, is caught by the
except-Exception clause and becomes a 500 whose detail is the string
rendering of the caught exception. -/
def chat (env : String → Option String)
    (developer_message user_message model provider : String)
    (api_key : Option String) (images : Option (List String)) :
    ChatResponse :=
  match get_provider_api_key env provider api_key with
  | .error m => .httpError 400 m
  | .ok _ =>
    match create_provider provider with
    | .error m => .httpError 400 m
    | .ok pk =>
      if validate_model pk model = false then
        .httpError 500 (http_exception_str 400 (invalid_model_detail pk provider model))
      else
        .streaming (build_messages developer_message user_message images) model 4000

/-! ## Helper lemmas -/

theorem lookup_append_some {α β : Type} [BEq α] (l₁ l₂ : List (α × β)) (a : α)
    (b : β) (h : l₁.lookup a = some b) : (l₁ ++ l₂).lookup a = some b := by
  induction l₁ with
  | nil => simp [List.lookup] at h
  | cons p l ih =>
    rcases p with ⟨k, v⟩
    rw [List.cons_append]
    cases hk : a == k with
    | true => simpa [List.lookup, hk] using h
    | false =>
      simp only [List.lookup, hk] at h ⊢
      exact ih h

theorem fetch_oidc_config_jwksCache (n : Net) (st : AuthState) :
    (fetch_oidc_config n st).2.1.jwksCache = st.jwksCache := by
  unfold fetch_oidc_config
  cases n.configFetch <;> rfl

theorem get_oidc_config_jwksCache (n : Net) (st : AuthState) :
    (get_oidc_config n st).2.1.jwksCache = st.jwksCache := by
  unfold get_oidc_config
  rcases hc : st.configCache with _ | cfg <;> rcases he : st.cacheExpiry with _ | e <;>
    simp [fetch_oidc_config_jwksCache]
  split <;> simp [fetch_oidc_config_jwksCache]

theorem get_jwks_jwksCache (n : Net) (st : AuthState) :
    (get_jwks n st).2.jwksCache = st.jwksCache := by
  unfold get_jwks
  rcases hoc : get_oidc_config n st with ⟨r, st1, f⟩
  have h1 : st1.jwksCache = st.jwksCache := by
    have := get_oidc_config_jwksCache n st
    rw [hoc] at this
    exact this
  cases r with
  | error m => simpa using h1
  | ok cfg =>
    rcases hF : n.jwksFetch cfg.jwks_uri with m | keys <;> simp [hF, h1]

/-! ## Claim theorems -/

/-- C6: every call to get_signing_key leaves the key cache unchanged or
extends it with exactly one fresh key-identifier entry, and every
previously cached key identifier still resolves to the same key
afterwards. -/
theorem jwks_cache_monotone (n : Net) (st : AuthState) (tok : Token) :
    ((get_signing_key n st tok).2.jwksCache = st.jwksCache
      ∨ ∃ kid key, st.jwksCache.lookup kid = none
          ∧ (get_signing_key n st tok).2.jwksCache = st.jwksCache ++ [(kid, key)])
    ∧ ∀ kid key, st.jwksCache.lookup kid = some key →
        (get_signing_key n st tok).2.jwksCache.lookup kid = some key := by
  have hmain : (get_signing_key n st tok).2.jwksCache = st.jwksCache
      ∨ ∃ kid key, st.jwksCache.lookup kid = none
          ∧ (get_signing_key n st tok).2.jwksCache = st.jwksCache ++ [(kid, key)] := by
    unfold get_signing_key
    split
    · exact Or.inl rfl
    · rcases tok.kid with _ | kid
      · exact Or.inl rfl
      · simp only
        split
        · exact Or.inl rfl
        · rcases hl : st.jwksCache.lookup kid with _ | key
          · simp only
            rcases hj : get_jwks n st with ⟨r, st1⟩
            have h1 : st1.jwksCache = st.jwksCache := by
              have := get_jwks_jwksCache n st
              rw [hj] at this
              exact this
            cases r with
            | error m => exact Or.inl h1
            | ok keys =>
              simp only
              rcases hf : keys.find? (fun k => k.kid == some kid) with _ | j <;>
                rw [hf]
              · exact Or.inl h1
              · exact Or.inr ⟨kid, rsa_of_jwk j, hl, by simp [h1]⟩
          · exact Or.inl rfl
  refine ⟨hmain, fun kid key hk => ?_⟩
  rcases hmain with h | ⟨k0, v0, _, heq⟩
  · rw [h]; exact hk
  · rw [heq]; exact lookup_append_some _ _ _ _ hk

/-- Witness for C6 at a concrete state: a cache miss that fetches and
inserts a fresh key preserves the previously cached entry. -/
theorem jwks_cache_monotone_witness :
    (get_signing_key
        ⟨0, .ok ⟨"https://issuer.example", "https://jwks.example", "https://ui.example"⟩,
         fun _ => .ok [⟨some "k2", "m2"⟩]⟩
        ⟨[("k1", ⟨"m1"⟩)], none, none⟩
        ⟨true, some "k2", "RS256", fun _ => true, false,
         ⟨"https://issuer.example", 1000, some 5, "aud", []⟩⟩).2.jwksCache.lookup "k1"
      = some ⟨"m1"⟩ :=
  (jwks_cache_monotone _ _ _).2 "k1" ⟨"m1"⟩ rfl

/-- The freshness condition under which get_oidc_config serves from cache. -/
def config_cache_fresh (n : Net) (st : AuthState) : Prop :=
  ∃ cfg e, st.configCache = some cfg ∧ st.cacheExpiry = some e ∧ n.now < e

theorem get_oidc_config_stale (n : Net) (st : AuthState)
    (h : ¬ config_cache_fresh n st) :
    get_oidc_config n st = fetch_oidc_config n st := by
  unfold get_oidc_config
  rcases hc : st.configCache with _ | cfg <;> rcases he : st.cacheExpiry with _ | e <;>
    simp only
  rw [if_neg]
  intro hlt
  exact h ⟨cfg, e, hc, he, hlt⟩

/-- C7: get_oidc_config serves the cached document with no network fetch
while the cache is populated and unexpired; otherwise it performs one
fetch, on success replacing the cache and setting expiry to now plus one
hour, and on failure erroring with the cache left untouched. -/
theorem get_oidc_config_caching (n : Net) (st : AuthState) :
    (∀ cfg e, st.configCache = some cfg → st.cacheExpiry = some e → n.now < e →
        get_oidc_config n st = (.ok cfg, st, 0))
    ∧ (¬ config_cache_fresh n st → ∀ cfg, n.configFetch = .ok cfg →
        get_oidc_config n st =
          (.ok cfg,
           { st with configCache := some cfg, cacheExpiry := some (n.now + 3600) },
           1))
    ∧ (¬ config_cache_fresh n st → ∀ m, n.configFetch = .error m →
        get_oidc_config n st = (.error m, st, 1)) := by
  refine ⟨fun cfg e hc he hlt => ?_, fun h cfg hf => ?_, fun h m hf => ?_⟩
  · unfold get_oidc_config
    rw [hc, he]
    simp [hlt]
  · rw [get_oidc_config_stale n st h]
    unfold fetch_oidc_config
    rw [hf]
  · rw [get_oidc_config_stale n st h]
    unfold fetch_oidc_config
    rw [hf]

/-- Witness for C7 at concrete states: a fresh cache is served without a
fetch, a cold cache is filled by a successful fetch with expiry set one
hour ahead, and a failed fetch leaves the state unchanged. -/
theorem get_oidc_config_caching_witness :
    get_oidc_config
        ⟨10, .error "offline", fun _ => .error "offline"⟩
        ⟨[], some ⟨"iss", "jwks", "ui"⟩, some 3600⟩
      = (.ok ⟨"iss", "jwks", "ui"⟩, ⟨[], some ⟨"iss", "jwks", "ui"⟩, some 3600⟩, 0)
    ∧ get_oidc_config
        ⟨10, .ok ⟨"iss2", "jwks2", "ui2"⟩, fun _ => .error "offline"⟩
        ⟨[], none, none⟩
      = (.ok ⟨"iss2", "jwks2", "ui2"⟩, ⟨[], some ⟨"iss2", "jwks2", "ui2"⟩, some 3610⟩, 1)
    ∧ get_oidc_config
        ⟨10, .error "connection refused", fun _ => .error "offline"⟩
        ⟨[], none, none⟩
      = (.error "connection refused", ⟨[], none, none⟩, 1) :=
  ⟨(get_oidc_config_caching _ _).1 _ _ rfl rfl (by decide),
   (get_oidc_config_caching _ _).2.1
     (by rintro ⟨cfg, e, hc, he, hlt⟩; simp at hc) _ rfl,
   (get_oidc_config_caching _ _).2.2
     (by rintro ⟨cfg, e, hc, he, hlt⟩; simp at hc) _ rfl⟩

theorem get_signing_key_eq_of_headerBad (n : Net) (st : AuthState) (tok : Token)
    (h : tok.headerOk = false) : get_signing_key n st tok = (none, st) := by
  unfold get_signing_key
  rw [if_pos h]

theorem get_signing_key_fst_none_of_kid_none (n : Net) (st : AuthState)
    (tok : Token) (h : tok.kid = none) : (get_signing_key n st tok).1 = none := by
  unfold get_signing_key
  split
  · rfl
  · rw [h]

theorem get_signing_key_fst_none_of_kid_empty (n : Net) (st : AuthState)
    (tok : Token) (h : tok.kid = some "") :
    (get_signing_key n st tok).1 = none := by
  unfold get_signing_key
  split
  · rfl
  · rw [h]
    simp

theorem validate_token_none_of_key_none (n : Net) (st : AuthState) (tok : Token)
    (h : (get_signing_key n st tok).1 = none) :
    (validate_token n st tok).1 = none := by
  unfold validate_token
  rcases hgs : get_signing_key n st tok with ⟨k, st1⟩
  rw [hgs] at h
  obtain rfl : k = none := h
  rfl

theorem jose_decode_ok_inv (tok : Token) (key : RSAKey) (issuer : String)
    (now : Int) (p : TokenPayload)
    (h : jose_decode tok key ACCEPTED_ALGS issuer now none VOPTS = .ok p) :
    tok.headerOk = true ∧ ACCEPTED_ALGS.contains tok.alg = true
    ∧ tok.sigValidFor key.material = true ∧ tok.iatMalformed = false
    ∧ ¬ tok.payload.exp < now ∧ tok.payload.iss = issuer
    ∧ p = tok.payload := by
  unfold jose_decode at h
  have hh : tok.headerOk = true := by
    by_contra hb
    have hb' : tok.headerOk = false := by
      cases hx : tok.headerOk
      · rfl
      · exact absurd hx hb
    rw [if_pos hb'] at h
    exact Except.noConfusion h
  rw [if_neg (by simp [hh])] at h
  have ha : ACCEPTED_ALGS.contains tok.alg = true := by
    by_contra hb
    have hb' : ACCEPTED_ALGS.contains tok.alg = false := by
      cases hx : ACCEPTED_ALGS.contains tok.alg
      · rfl
      · exact absurd hx hb
    rw [if_pos hb'] at h
    exact Except.noConfusion h
  rw [if_neg (by intro hx; rw [ha] at hx; exact Bool.noConfusion hx)] at h
  have hs : tok.sigValidFor key.material = true := by
    by_contra hb
    have hb' : tok.sigValidFor key.material = false := by
      cases hx : tok.sigValidFor key.material
      · rfl
      · exact absurd hx hb
    rw [if_pos ⟨rfl, hb'⟩] at h
    exact Except.noConfusion h
  rw [if_neg (by simp [VOPTS, hs])] at h
  have hi : tok.iatMalformed = false := by
    by_contra hb
    have hb' : tok.iatMalformed = true := by
      cases hx : tok.iatMalformed
      · exact absurd hx hb
      · rfl
    rw [if_pos ⟨rfl, hb'⟩] at h
    exact Except.noConfusion h
  rw [if_neg (by simp [VOPTS, hi])] at h
  have he : ¬ tok.payload.exp < now := by
    intro hb
    rw [if_pos ⟨rfl, hb⟩] at h
    exact Except.noConfusion h
  rw [if_neg (by simp [VOPTS, he])] at h
  rw [if_neg (by simp [VOPTS])] at h
  have hiss : tok.payload.iss = issuer := by
    by_contra hb
    rw [if_pos ⟨rfl, hb⟩] at h
    exact Except.noConfusion h
  rw [if_neg (by simp [VOPTS, hiss])] at h
  injection h with h
  exact ⟨hh, ha, hs, hi, he, hiss, h.symm⟩

theorem validate_token_success (n : Net) (st : AuthState) (tok : Token)
    (key : RSAKey) (cfg : OIDCConfig)
    (hkey : (get_signing_key n st tok).1 = some key)
    (hcfg : (get_oidc_config n (get_signing_key n st tok).2).1 = .ok cfg)
    (hheader : tok.headerOk = true)
    (halg : ACCEPTED_ALGS.contains tok.alg = true)
    (hsig : tok.sigValidFor key.material = true)
    (hiat : tok.iatMalformed = false)
    (hexp : ¬ tok.payload.exp < n.now)
    (hiss : tok.payload.iss = cfg.issuer) :
    (validate_token n st tok).1 = some tok.payload := by
  have halg' : tok.alg ∈ ACCEPTED_ALGS := by simpa using halg
  have hd : jose_decode tok key ACCEPTED_ALGS cfg.issuer n.now none VOPTS
      = .ok tok.payload := by
    unfold jose_decode
    simp [VOPTS, hheader, halg, halg', hsig, hiat, hexp, hiss]
  rcases hgs : get_signing_key n st tok with ⟨k, st1⟩
  rw [hgs] at hkey hcfg
  obtain rfl : k = some key := hkey
  have hcfg' : (get_oidc_config n st1).1 = .ok cfg := hcfg
  rcases hoc : get_oidc_config n st1 with ⟨r, st2, f⟩
  rw [hoc] at hcfg'
  obtain rfl : r = .ok cfg := hcfg'
  simp only [validate_token, hgs, hoc, hd]

theorem validate_token_cases (n : Net) (st : AuthState) (tok : Token) :
    (validate_token n st tok).1 = none
    ∨ ∃ key cfg p, (get_signing_key n st tok).1 = some key
        ∧ (get_oidc_config n (get_signing_key n st tok).2).1 = .ok cfg
        ∧ jose_decode tok key ACCEPTED_ALGS cfg.issuer n.now none VOPTS = .ok p
        ∧ (validate_token n st tok).1 = some p := by
  rcases hgs : get_signing_key n st tok with ⟨k, st1⟩
  rcases k with _ | key
  · exact Or.inl (validate_token_none_of_key_none n st tok (by rw [hgs]))
  · rcases hoc : get_oidc_config n st1 with ⟨r, st2, f⟩
    rcases r with m | cfg
    · exact Or.inl (by simp only [validate_token, hgs, hoc])
    · rcases hd : jose_decode tok key ACCEPTED_ALGS cfg.issuer n.now none VOPTS
        with m | p
      · exact Or.inl (by simp only [validate_token, hgs, hoc, hd])
      · exact Or.inr ⟨key, cfg, p, rfl, rfl, hd,
          by simp only [validate_token, hgs, hoc, hd]⟩

/-- C1: whenever any validation step fails — header malformed, key
identifier absent or empty, signing-key resolution returning nothing
(unknown kid or failed discovery/key-set fetch), the discovery document
unavailable, the signature verifying under no resolvable key, the issuer
mismatching the discovery document, or exp in the past — validate_token
returns None.  The embedding of validate_token is a total function into
an Option, so no exception crosses its boundary. -/
theorem validate_token_invalid_on_failure (n : Net) (st : AuthState)
    (tok : Token)
    (h : tok.headerOk = false
      ∨ tok.kid = none
      ∨ tok.kid = some ""
      ∨ (get_signing_key n st tok).1 = none
      ∨ (∃ m, (get_oidc_config n (get_signing_key n st tok).2).1 = .error m)
      ∨ (∀ key, (get_signing_key n st tok).1 = some key →
            tok.sigValidFor key.material = false)
      ∨ (∀ cfg, (get_oidc_config n (get_signing_key n st tok).2).1 = .ok cfg →
            tok.payload.iss ≠ cfg.issuer)
      ∨ tok.payload.exp < n.now) :
    (validate_token n st tok).1 = none := by
  rcases validate_token_cases n st tok with hnone | ⟨key, cfg, p, hk, hc, hd, hres⟩
  · exact hnone
  exfalso
  obtain ⟨hh, ha, hs, hi, he, hiss, rfl⟩ :=
    jose_decode_ok_inv tok key cfg.issuer n.now p hd
  rcases h with h | h | h | h | ⟨m, hm⟩ | h | h | h
  · rw [h] at hh
    exact Bool.noConfusion hh
  · have := get_signing_key_fst_none_of_kid_none n st tok h
    rw [hk] at this
    exact Option.noConfusion this
  · have := get_signing_key_fst_none_of_kid_empty n st tok h
    rw [hk] at this
    exact Option.noConfusion this
  · rw [h] at hk
    exact Option.noConfusion hk
  · rw [hm] at hc
    exact Except.noConfusion hc
  · have := h key hk
    rw [hs] at this
    exact Bool.noConfusion this
  · exact h cfg hc hiss
  · exact he h

/-- Concrete fixtures for the witnesses: a network that is offline, a
warm cache holding one key and the discovery document, and tokens over
them. -/
def cfgW : OIDCConfig :=
  ⟨"https://issuer.example", "https://jwks.example", "https://ui.example"⟩

def keyW : RSAKey := ⟨"material-1"⟩

def netW : Net := ⟨10, .error "offline", fun _ => .error "offline"⟩

def stW : AuthState := ⟨[("kid-1", keyW)], some cfgW, some 3600⟩

def payloadW : TokenPayload :=
  ⟨"https://issuer.example", 5000, some 3, "client-1", [("sub", "alice")]⟩

def tokW : Token :=
  ⟨true, some "kid-1", "RS256", fun m => m == "material-1", false, payloadW⟩

def tokExpW : Token :=
  ⟨true, some "kid-1", "RS256", fun m => m == "material-1", false,
   ⟨"https://issuer.example", -5, some 3, "client-1", []⟩⟩

/-- Witness for C1: a token whose exp lies in the past validates to None. -/
theorem validate_token_invalid_on_failure_witness :
    (validate_token netW stW tokExpW).1 = none :=
  validate_token_invalid_on_failure netW stW tokExpW
    (Or.inr (Or.inr (Or.inr (Or.inr (Or.inr (Or.inr (Or.inr (by decide))))))))

/-- C2: a token whose header parses, whose key identifier resolves to a
key, whose signature verifies under that key with an accepted algorithm,
whose issuer equals the discovery document's issuer and whose exp and iat
checks pass, validates to exactly its decoded payload, unmodified; and the
audience claim is never consulted, so the same token with any audience
value validates to the correspondingly unchanged payload. -/
theorem validate_token_returns_claims (n : Net) (st : AuthState) (tok : Token)
    (key : RSAKey) (cfg : OIDCConfig)
    (hkey : (get_signing_key n st tok).1 = some key)
    (hcfg : (get_oidc_config n (get_signing_key n st tok).2).1 = .ok cfg)
    (hheader : tok.headerOk = true)
    (halg : ACCEPTED_ALGS.contains tok.alg = true)
    (hsig : tok.sigValidFor key.material = true)
    (hiat : tok.iatMalformed = false)
    (hexp : ¬ tok.payload.exp < n.now)
    (hiss : tok.payload.iss = cfg.issuer) :
    (validate_token n st tok).1 = some tok.payload
    ∧ ∀ a : String,
        (validate_token n st
            { tok with payload := { tok.payload with aud := a } }).1
          = some { tok.payload with aud := a } := by
  refine ⟨validate_token_success n st tok key cfg hkey hcfg hheader halg hsig
    hiat hexp hiss, fun a => ?_⟩
  exact validate_token_success n st
    { tok with payload := { tok.payload with aud := a } } key cfg
    hkey hcfg hheader halg hsig hiat hexp hiss

/-- Witness for C2: a concrete cached-key, cached-config token validates
to its payload, also after replacing its audience. -/
theorem validate_token_returns_claims_witness :
    (validate_token netW stW tokW).1 = some payloadW
    ∧ (validate_token netW stW
          { tokW with payload := { tokW.payload with aud := "other-audience" } }).1
        = some { tokW.payload with aud := "other-audience" } :=
  ⟨(validate_token_returns_claims netW stW tokW keyW cfgW
      rfl rfl rfl rfl rfl rfl (by decide) rfl).1,
   (validate_token_returns_claims netW stW tokW keyW cfgW
      rfl rfl rfl rfl rfl rfl (by decide) rfl).2 "other-audience"⟩

theorem claude_convert_messages_no_system (msgs : List Msg) :
    ∀ cm ∈ claude_convert_messages msgs, cm.role ≠ "system" := by
  induction msgs with
  | nil => intro cm hcm; simp [claude_convert_messages] at hcm
  | cons m ms ih =>
    intro cm hcm
    by_cases hr : m.role = "system"
    · rw [claude_convert_messages, if_pos hr] at hcm
      exact ih cm hcm
    · rw [claude_convert_messages, if_neg hr] at hcm
      rcases List.mem_cons.mp hcm with rfl | hcm
      · by_cases ha : m.role = "assistant"
        · simp [ha]
        · simpa [ha] using hr
      · exact ih cm hcm

theorem claude_convert_messages_eq_filter_map (msgs : List Msg) :
    claude_convert_messages msgs
      = (msgs.filter (fun m => m.role != "system")).map
          (fun m => ⟨if m.role ≠ "assistant" then m.role else "assistant",
                     claude_convert_content m.content⟩) := by
  induction msgs with
  | nil => rfl
  | cons m ms ih =>
    by_cases hr : m.role = "system"
    · simp [claude_convert_messages, hr, ih]
    · simp [claude_convert_messages, hr, ih]

theorem collect_text_parts_eq_filterMap (l : List Part) :
    collect_text_parts l = l.filterMap part_text := by
  induction l with
  | nil => rfl
  | cons p ps ih => cases p <;> simp [collect_text_parts, part_text, ih]

/-- C5: when the message list begins with a system-role message, the
Claude request carries that message's content as the separate top-level
system field, the transmitted array contains no system-role entries and
consists exactly of the non-system messages with content flattened to a
single string, multimodal part lists become their text parts joined by
spaces with image parts dropped, and on the concrete input
system S, user U the request is system = S with array user U. -/
theorem claude_request_system_extraction (msgs : List Msg) (m0 : Msg)
    (rest : List Msg) (hm : msgs = m0 :: rest) (hrole : m0.role = "system") :
    (claude_build_request msgs).system = m0.content
    ∧ (∀ cm ∈ (claude_build_request msgs).messages, cm.role ≠ "system")
    ∧ (claude_build_request msgs).messages
        = (msgs.filter (fun m => m.role != "system")).map
            (fun m => ⟨if m.role ≠ "assistant" then m.role else "assistant",
                       claude_convert_content m.content⟩)
    ∧ (∀ l : List Part,
        claude_convert_content (.parts l)
          = String.intercalate " " (l.filterMap part_text))
    ∧ (∀ S U : String,
        claude_build_request [⟨"system", .str S⟩, ⟨"user", .str U⟩]
          = ⟨.str S, [⟨"user", U⟩]⟩) := by
  subst hm
  refine ⟨?_, fun cm hcm => claude_convert_messages_no_system _ cm hcm,
    claude_convert_messages_eq_filter_map _, fun l => ?_, fun S U => rfl⟩
  · simp [claude_build_request, extract_system, hrole]
  · simp [claude_convert_content, collect_text_parts_eq_filterMap]

/-- Witness for C5 at the concrete input from the spec. -/
theorem claude_request_system_extraction_witness :
    (claude_build_request [⟨"system", .str "S"⟩, ⟨"user", .str "U"⟩]).system
        = Content.str "S"
    ∧ claude_build_request [⟨"system", .str "S"⟩, ⟨"user", .str "U"⟩]
        = ⟨.str "S", [⟨"user", "U"⟩]⟩ :=
  ⟨(claude_request_system_extraction
      [⟨"system", .str "S"⟩, ⟨"user", .str "U"⟩]
      ⟨"system", .str "S"⟩ [⟨"user", .str "U"⟩] rfl rfl).1,
   (claude_request_system_extraction
      [⟨"system", .str "S"⟩, ⟨"user", .str "U"⟩]
      ⟨"system", .str "S"⟩ [⟨"user", .str "U"⟩] rfl rfl).2.2.2.2 "S" "U"⟩

/-- C9: when the message list does not begin with a system-role message,
the Claude request's separate system field is the empty string, and every
system-role message anywhere in the list is silently dropped: the
transmitted array is exactly the non-system messages, converted, with no
system-role entry. -/
theorem claude_request_no_leading_system (msgs : List Msg)
    (h : ∀ m, msgs.head? = some m → m.role ≠ "system") :
    (claude_build_request msgs).system = .str ""
    ∧ (claude_build_request msgs).messages
        = (msgs.filter (fun m => m.role != "system")).map
            (fun m => ⟨if m.role ≠ "assistant" then m.role else "assistant",
                       claude_convert_content m.content⟩)
    ∧ ∀ cm ∈ (claude_build_request msgs).messages, cm.role ≠ "system" := by
  refine ⟨?_, claude_convert_messages_eq_filter_map _,
    fun cm hcm => claude_convert_messages_no_system _ cm hcm⟩
  cases msgs with
  | nil => rfl
  | cons m ms =>
    have hr := h m rfl
    simp [claude_build_request, extract_system, hr]

/-- Witness for C9: a user message followed by a late system message
yields an empty system field and an array holding only the user entry. -/
theorem claude_request_no_leading_system_witness :
    (claude_build_request [⟨"user", .str "U"⟩, ⟨"system", .str "S2"⟩]).system
        = Content.str ""
    ∧ (claude_build_request [⟨"user", .str "U"⟩, ⟨"system", .str "S2"⟩]).messages
        = [⟨"user", "U"⟩] :=
  ⟨(claude_request_no_leading_system _
      (fun m hm => by injection hm with hm; subst hm; decide)).1,
   ((claude_request_no_leading_system
      [⟨"user", .str "U"⟩, ⟨"system", .str "S2"⟩]
      (fun m hm => by injection hm with hm; subst hm; decide)).2.1).trans rfl⟩

/-- Counterexample for C4: an event whose delta content is present but
empty still produces a fragment, although the claim says a fragment is
emitted only when the delta carries non-empty content. -/
theorem openai_stream_empty_content_counterexample :
    openai_stream_chat [⟨[⟨⟨some ""⟩⟩]⟩] = .ok [""]
    ∧ openai_stream_chat [⟨[⟨⟨some ""⟩⟩]⟩] ≠ .ok [] :=
  ⟨rfl, fun h => List.noConfusion (Except.ok.inj h)⟩

/-- C4 as amended: over any upstream whose events each carry at least one
choice, a fragment is emitted exactly for the events whose first choice's
delta content is present — including the empty string — in event order,
and all other events are silently skipped. -/
theorem openai_stream_chat_fragments (chunks : List Chunk)
    (h : ∀ c ∈ chunks, c.choices ≠ []) :
    openai_stream_chat chunks
      = .ok (chunks.filterMap
          (fun c => c.choices.head?.bind (fun ch => ch.delta.content))) := by
  induction chunks with
  | nil => rfl
  | cons c cs ih =>
    have hc : c.choices ≠ [] := h c (List.mem_cons_self c cs)
    have hcs : ∀ x ∈ cs, x.choices ≠ [] := fun x hx => h x (List.mem_cons_of_mem c hx)
    rcases hch : c.choices with _ | ⟨ch, rest⟩
    · exact absurd hch hc
    · rcases hcon : ch.delta.content with _ | t
      · simp [openai_stream_chat, hch, hcon, ih hcs]
      · simp [openai_stream_chat, hch, hcon, ih hcs]

/-- The scripted upstream from the spec: three content deltas interleaved
with one non-content event. -/
def scripted_chunks : List Chunk :=
  [⟨[⟨⟨some "Hel"⟩⟩]⟩, ⟨[⟨⟨none⟩⟩]⟩, ⟨[⟨⟨some "lo"⟩⟩]⟩, ⟨[⟨⟨some " world"⟩⟩]⟩]

/-- Witness for C4 as amended: the scripted upstream yields exactly the
three fragments in order. -/
theorem openai_stream_chat_fragments_witness :
    openai_stream_chat scripted_chunks = .ok ["Hel", "lo", " world"] :=
  (openai_stream_chat_fragments scripted_chunks (by decide)).trans rfl

/-- C3 (recording the code bug): for an authenticated request naming the
unsupported model gpt-5-unknown with the openai provider, the endpoint
responds 500, not the claimed 400 — the HTTPException(400) raised inside
the try block is caught by the blanket except-Exception clause and
re-raised as a 500 whose detail is the rendered 400 message; the supported
model list appears only inside that detail text. -/
theorem chat_invalid_model_http_500 :
    validate_model .openai "gpt-5-unknown" = false
    ∧ chat (fun _ => none) "You are helpful" "hi" "gpt-5-unknown" "openai"
        (some "sk-test") none
      = .httpError 500
          "400: ❌ Invalid model 'gpt-5-unknown' for provider 'openai'. Supported models: gpt-4o-mini, gpt-4o, gpt-4-turbo, gpt-4, gpt-3.5-turbo" :=
  ⟨rfl, rfl⟩

theorem get_provider_api_key_fallback (env : String → Option String)
    (p : String) (c : Option String) (hc : c = none ∨ c = some "") :
    get_provider_api_key env p c = env_api_key env p := by
  rcases hc with rfl | rfl
  · rfl
  · simp [get_provider_api_key]

theorem env_api_key_openai (env : String → Option String) (p : String)
    (hlow : str_lower p = "openai") (dk : String)
    (hdk : env "OPENAI_API_KEY" = some dk) (hne : dk ≠ "") :
    env_api_key env p = .ok dk := by
  simp only [env_api_key, hlow]
  rw [if_pos trivial]
  simp only [hdk]
  rw [if_pos hne]

theorem env_api_key_claude (env : String → Option String) (p : String)
    (hlow : str_lower p = "claude") (dk : String)
    (hdk : env "CLAUDE_API_KEY" = some dk) (hne : dk ≠ "") :
    env_api_key env p = .ok dk := by
  simp only [env_api_key, hlow]
  rw [if_pos trivial]
  simp only [hdk]
  rw [if_pos hne]
  rw [if_neg (by decide)]

theorem env_api_key_claude_missing (env : String → Option String) (p : String)
    (hlow : str_lower p = "claude")
    (henv : env "CLAUDE_API_KEY" = none ∨ env "CLAUDE_API_KEY" = some "") :
    env_api_key env p = .error CLAUDE_KEY_ERROR := by
  simp only [env_api_key, hlow]
  rw [if_pos trivial]
  rcases henv with h | h
  · simp only [h]
    rw [if_neg (by decide)]
  · simp only [h]
    rw [if_neg (not_not_intro rfl)]
    rw [if_neg (by decide)]

/-- C8: get_provider_api_key returns a non-empty supplied credential
unchanged; an absent or empty supplied credential falls back to the
environment default of the named provider, returned when set and
non-empty; and for provider claude with neither credential available it
fails with the remediation message, which contains the literal
console.anthropic.com. -/
theorem get_provider_api_key_resolution (env : String → Option String)
    (p : String) (k : String) (c : Option String) :
    (k ≠ "" → get_provider_api_key env p (some k) = .ok k)
    ∧ (c = none ∨ c = some "" → str_lower p = "openai" →
        ∀ dk, env "OPENAI_API_KEY" = some dk → dk ≠ "" →
          get_provider_api_key env p c = .ok dk)
    ∧ (c = none ∨ c = some "" → str_lower p = "claude" →
        ∀ dk, env "CLAUDE_API_KEY" = some dk → dk ≠ "" →
          get_provider_api_key env p c = .ok dk)
    ∧ (c = none ∨ c = some "" → str_lower p = "claude" →
        (env "CLAUDE_API_KEY" = none ∨ env "CLAUDE_API_KEY" = some "") →
        get_provider_api_key env p c = .error CLAUDE_KEY_ERROR
        ∧ ∃ s1 s2, CLAUDE_KEY_ERROR = s1 ++ "console.anthropic.com" ++ s2) := by
  refine ⟨fun hk => ?_, fun hc hlow dk hdk hne => ?_,
    fun hc hlow dk hdk hne => ?_, fun hc hlow henv => ⟨?_, ?_⟩⟩
  · simp [get_provider_api_key, hk]
  · rw [get_provider_api_key_fallback env p c hc]
    exact env_api_key_openai env p hlow dk hdk hne
  · rw [get_provider_api_key_fallback env p c hc]
    exact env_api_key_claude env p hlow dk hdk hne
  · rw [get_provider_api_key_fallback env p c hc]
    exact env_api_key_claude_missing env p hlow henv
  · exact ⟨"❌ Claude API Key Required: No API key was provided in the request and no CLAUDE_API_KEY environment variable is set. Please either: 1) Add your API key in the frontend settings, or 2) Set the CLAUDE_API_KEY environment variable on the server. Get your API key from: https://",
      "/", rfl⟩

/-- Witness for C8: a supplied key wins, the environment default is used
when no key is supplied, and a missing claude credential yields the
remediation error. -/
theorem get_provider_api_key_resolution_witness :
    get_provider_api_key (fun _ => none) "claude" (some "sk-custom")
        = .ok "sk-custom"
    ∧ get_provider_api_key
        (fun s => if s = "CLAUDE_API_KEY" then some "sk-env" else none)
        "claude" none = .ok "sk-env"
    ∧ get_provider_api_key (fun _ => none) "claude" none
        = .error CLAUDE_KEY_ERROR :=
  ⟨(get_provider_api_key_resolution (fun _ => none) "claude" "sk-custom" none).1
      (by decide),
   (get_provider_api_key_resolution
      (fun s => if s = "CLAUDE_API_KEY" then some "sk-env" else none)
      "claude" "x" none).2.2.1 (Or.inl rfl) (by decide) "sk-env" rfl (by decide),
   ((get_provider_api_key_resolution (fun _ => none) "claude" "x" none).2.2.2
      (Or.inl rfl) (by decide) (Or.inl rfl)).1⟩

/-- C10: a body omitting every optional field parses with model
gpt-4o-mini, provider openai, no supplied credential and no images; with
no images the built user message holds only the text part; and the absent
credential falls back to the environment default. -/
theorem chat_request_defaults (d u : String) :
    parse_chat_request ⟨d, u, none, none, none, none⟩
        = ⟨d, u, some "gpt-4o-mini", some "openai", none, none⟩
    ∧ build_messages d u (parse_chat_request ⟨d, u, none, none, none, none⟩).images
        = [⟨"system", .str d⟩, ⟨"user", .parts [Part.text u]⟩]
    ∧ (∀ env dk, env "OPENAI_API_KEY" = some dk → dk ≠ "" →
        get_provider_api_key env "openai"
            (parse_chat_request ⟨d, u, none, none, none, none⟩).api_key
          = .ok dk) := by
  refine ⟨rfl, rfl, fun env dk hdk hne => ?_⟩
  exact env_api_key_openai env "openai" (by decide) dk hdk hne

/-- Witness for C10 at a concrete body and environment. -/
theorem chat_request_defaults_witness :
    parse_chat_request ⟨"Be nice", "Hello", none, none, none, none⟩
        = ⟨"Be nice", "Hello", some "gpt-4o-mini", some "openai", none, none⟩
    ∧ get_provider_api_key
        (fun s => if s = "OPENAI_API_KEY" then some "sk-env" else none)
        "openai"
        (parse_chat_request ⟨"Be nice", "Hello", none, none, none, none⟩).api_key
      = .ok "sk-env" :=
  ⟨(chat_request_defaults "Be nice" "Hello").1,
   (chat_request_defaults "Be nice" "Hello").2.2
      (fun s => if s = "OPENAI_API_KEY" then some "sk-env" else none)
      "sk-env" rfl (by decide)⟩

end AIChat
